import Mathlib

/-!
Verification of the formatting-context core of the react-intl provider
(src/components/provider.tsx), shallowly embedded in Lean.

Modelling conventions:
- A JavaScript object is a value tagged with a reference identity
  (ReactIntl.Obj); object allocation is modelled by threading a counter,
  each evaluated object literal taking the next fresh reference.
- A possibly-absent property of an object is an Option (Option _):
  none models a key that is not present on the object, some none models a
  key present with value undefined, some (some v) a key with value v.
  Reading a property (jsGet) collapses an absent key to undefined, as
  property access does in JavaScript.
- Strings, booleans and numbers are compared by value; objects and
  functions are compared by reference, matching the semantics of the
  strict-equality operator used by the shallow-equal package.
- Side effects of createIntl (calls to the onError callback) are returned
  as an explicit list of the structured errors passed to the callback.
-/

namespace ReactIntl

/-- A JavaScript object: a payload value tagged with reference identity. -/
structure Obj (α : Type) where
  ref : Nat
  val : α
deriving DecidableEq

/-- Reading a possibly-absent property: an absent key reads as undefined. -/
def jsGet {α : Type} : Option (Option α) → Option α
  | none => none
  | some v => v

/-- Truthiness of a possibly-undefined string: undefined and the empty
string are falsy, every other string is truthy. -/
def truthyStr : Option String → Bool
  | none => false
  | some s => !(s == "")

/-- The JavaScript or-else operator on possibly-undefined strings:
the left operand when truthy, otherwise the right operand. -/
def jsOrStr (a b : Option String) : Option String :=
  if truthyStr a then a else b

/-- Rendering of a possibly-undefined string inside a template literal:
undefined prints as the string undefined. -/
def jsTemplateStr : Option String → String
  | none => "undefined"
  | some s => s

/-- A JavaScript value stored in a callback-typed field: either an actual
function or some non-callable value, each carrying reference identity. -/
inductive JsFun where
  | fn (ref : Nat)
  | notFn (ref : Nat)
deriving DecidableEq

/-- The typeof-function test used by createIntl on the onError field. -/
def isJsFn : Option JsFun → Bool
  | some (JsFun.fn _) => true
  | _ => false

/-- An Intl.DateTimeFormat options object for one preset: its own timeZone
property (possibly absent, possibly undefined) plus its remaining
properties, modelled opaquely as named slots. -/
structure DTOpts where
  timeZone : Option (Option String)
  others : List (String × Nat)
deriving DecidableEq

/-- A record of named date or time presets, in key-insertion order. -/
abbrev PresetMap := List (String × DTOpts)

/-- The payload of a formats (or defaultFormats) object: its date and time
preset records plus its remaining properties, kept opaque. -/
structure FormatsVal where
  date : Option (Option PresetMap)
  time : Option (Option PresetMap)
  others : List (String × Nat)
deriving DecidableEq

/-- A formats object with reference identity. -/
abbrev FormatsObj := Obj FormatsVal

/-- A raw configuration as handed to the provider or to createIntl
(the OptionalIntlConfig type): the eight canonical keys, each possibly
absent or undefined, plus any additional own properties (extra), which the
core is expected to ignore. textComponent and messages are opaque objects
modelled by their reference identity alone. -/
structure RawConfig where
  locale : Option (Option String)
  timeZone : Option (Option String)
  formats : Option (Option FormatsObj)
  textComponent : Option (Option Nat)
  messages : Option (Option Nat)
  defaultLocale : Option (Option String)
  defaultFormats : Option (Option FormatsObj)
  onError : Option (Option JsFun)
  extra : List (String × Nat)
deriving DecidableEq

/-- The object literal returned by processIntlConfig: all eight canonical
keys are present (their values may be undefined). -/
structure CanonConfig where
  locale : Option String
  timeZone : Option String
  formats : Option FormatsObj
  textComponent : Option Nat
  messages : Option Nat
  defaultLocale : Option String
  defaultFormats : Option FormatsObj
  onError : Option JsFun
deriving DecidableEq

/-- A canonical configuration viewed again as a raw configuration object:
every canonical key is present on it. -/
def CanonConfig.toRaw (c : CanonConfig) : RawConfig :=
  { locale := some c.locale
    timeZone := some c.timeZone
    formats := some c.formats
    textComponent := some c.textComponent
    messages := some c.messages
    defaultLocale := some c.defaultLocale
    defaultFormats := some c.defaultFormats
    onError := some c.onError
    extra := [] }

/-- The deep value content of a canonical configuration: reference tags of
the nested formats objects are erased, everything else is kept. Used to
state equalities up to deep value equality of each field. -/
structure CanonVal where
  locale : Option String
  timeZone : Option String
  formats : Option FormatsVal
  textComponent : Option Nat
  messages : Option Nat
  defaultLocale : Option String
  defaultFormats : Option FormatsVal
  onError : Option JsFun
deriving DecidableEq

/-- Erase the reference identities of a canonical configuration, keeping
the per-field deep values. -/
def CanonConfig.strip (c : CanonConfig) : CanonVal :=
  { locale := c.locale
    timeZone := c.timeZone
    formats := c.formats.map Obj.val
    textComponent := c.textComponent
    messages := c.messages
    defaultLocale := c.defaultLocale
    defaultFormats := c.defaultFormats.map Obj.val
    onError := c.onError }

/-- The key list of the object literal returned by processIntlConfig
(provider.tsx lines 107 to 116), in source order. -/
def canonKeys (_ : CanonConfig) : List String :=
  ["locale", "timeZone", "formats", "textComponent", "messages",
   "defaultLocale", "defaultFormats", "onError"]

/-- setTimeZoneInOptions (provider.tsx lines 55 to 69): rebuild a preset
record, sending each preset name to the spread of the original options
over a base layer holding the explicit timeZone. A timeZone property of
the original options (even an undefined one) overrides the base layer. -/
def setTimeZoneInOptions (opts : PresetMap) (timeZone : String) : PresetMap :=
  opts.map fun kv =>
    (kv.1, { timeZone := some (kv.2.timeZone.getD (some timeZone))
             others := kv.2.others })

/-- The timeZone-injection block of processIntlConfig (provider.tsx lines
76 to 90, and its verbatim copy for defaultFormats at lines 91 to 105):
when the formats object exists, rebuild it with setTimeZoneInOptions
applied to its date record and then to its time record, when each is
truthy. Each rebuilt formats object is a fresh object literal, so it takes
a fresh reference from the allocation counter. -/
def injectFormats : Option FormatsObj → String → Nat → Option FormatsObj × Nat
  | none, _, n => (none, n)
  | some fobj, tz, n =>
    let dateFormats := fobj.val.date.getD none
    let timeFormats := fobj.val.time.getD none
    let step1 :=
      match dateFormats with
      | some dm =>
        (Obj.mk n { fobj.val with date := some (some (setTimeZoneInOptions dm tz)) }, n + 1)
      | none => (fobj, n)
    match timeFormats with
    | some tm =>
      (some (Obj.mk step1.2 { step1.1.val with time := some (some (setTimeZoneInOptions tm tz)) }),
       step1.2 + 1)
    | none => (some step1.1, step1.2)

/-- processIntlConfig (provider.tsx lines 71 to 117): normalize a raw
configuration. When timeZone is truthy the date and time preset records of
formats and defaultFormats receive the injected timeZone; the returned
object literal carries exactly the eight canonical keys, reading absent
input keys as undefined. -/
def processIntlConfig (config : RawConfig) (n : Nat) : CanonConfig × Nat :=
  let timeZone := jsGet config.timeZone
  let fRes :=
    if truthyStr timeZone then injectFormats (jsGet config.formats) (timeZone.getD "") n
    else (jsGet config.formats, n)
  let dRes :=
    if truthyStr timeZone then injectFormats (jsGet config.defaultFormats) (timeZone.getD "") fRes.2
    else (jsGet config.defaultFormats, fRes.2)
  ({ locale := jsGet config.locale
     timeZone := timeZone
     formats := fRes.1
     textComponent := jsGet config.textComponent
     messages := jsGet config.messages
     defaultLocale := jsGet config.defaultLocale
     defaultFormats := dRes.1
     onError := jsGet config.onError }, dRes.2)

/-- The shallow-equal package applied to two canonical configurations
(both always carry the same eight keys): per-key strict equality, value
equality for strings and undefined, reference equality for the nested
objects and callbacks. -/
def shallowEquals (a b : CanonConfig) : Bool :=
  a.locale == b.locale
  && a.timeZone == b.timeZone
  && (a.formats.map Obj.ref) == (b.formats.map Obj.ref)
  && a.textComponent == b.textComponent
  && a.messages == b.messages
  && a.defaultLocale == b.defaultLocale
  && (a.defaultFormats.map Obj.ref) == (b.defaultFormats.map Obj.ref)
  && a.onError == b.onError

/-- Modelled from the spec: DEFAULT_INTL_CONFIG lives in src/utils, which
is absent from the sources provided; the spec (sections 3 and 6) records
only the default of defaultLocale, the string en, so the system defaults
are modelled as the object carrying that single key. -/
def DEFAULT_INTL_CONFIG : RawConfig :=
  { locale := none
    timeZone := none
    formats := none
    textComponent := none
    messages := none
    defaultLocale := some (some ("en"))
    defaultFormats := none
    onError := none
    extra := [] }

/-- Object spread of a configuration over another (the merge on line 162):
a key present on the right object, even with an undefined value, overrides
the left object; keys only present on the left survive. -/
def mergeConfigs (d c : RawConfig) : RawConfig :=
  { locale := c.locale.orElse fun _ => d.locale
    timeZone := c.timeZone.orElse fun _ => d.timeZone
    formats := c.formats.orElse fun _ => d.formats
    textComponent := c.textComponent.orElse fun _ => d.textComponent
    messages := c.messages.orElse fun _ => d.messages
    defaultLocale := c.defaultLocale.orElse fun _ => d.defaultLocale
    defaultFormats := c.defaultFormats.orElse fun _ => d.defaultFormats
    onError := c.onError.orElse fun _ => d.onError
    extra := (d.extra.filter fun kv => !(c.extra.any fun kw => kw.1 == kv.1)) ++ c.extra }

/-- Modelled from the spec: createError lives in src/utils, absent from
the sources provided; per section 7 it wraps a message into a structured
error value. -/
structure IntlError where
  message : String
deriving DecidableEq

/-- Modelled from the spec: build the structured error from its message. -/
def createError (message : String) : IntlError :=
  { message := message }

/-- The missing-locale-data message built by createIntl (lines 171 and
172) from the requested locale and the default locale, both read before
the fallback assignment. -/
def missingLocaleMessage (locale defaultLocale : Option String) : String :=
  "Missing locale data for locale: \"" ++ jsTemplateStr locale
    ++ "\". Using default locale: \"" ++ jsTemplateStr defaultLocale
    ++ "\" as fallback."

/-- The validation condition on lines 163 to 166: the resolved locale is
falsy, or the external locale-availability predicate rejects it. -/
def localeNotUsable (supported : String → Bool) (locale : Option String) : Bool :=
  !(truthyStr locale) || !(supported (locale.getD ""))

/-- Modelled from the spec: createIntlCache (src/utils, absent from the
sources provided) allocates a fresh formatter cache, modelled as a fresh
reference from the allocation counter. -/
def createIntlCache (n : Nat) : Nat × Nat :=
  (n, n + 1)

/-- Modelled from the spec: createFormatters (src/utils, absent from the
sources provided) builds the formatter bundle over the supplied cache, or
over a fresh cache when none is supplied (section 4.4 step 3). Modelled as
the reference of the cache the bundle closes over. -/
def createFormatters (cache : Option Nat) (n : Nat) : Nat × Nat :=
  match cache with
  | some c => (c, n)
  | none => (n, n + 1)

/-- The formatting context object returned by createIntl: the resolved
configuration fields spread into a fresh object together with the
formatter bundle, the latter modelled by the reference of the cache it was
built over. -/
structure IntlShape where
  ref : Nat
  locale : Option (Option String)
  timeZone : Option (Option String)
  formats : Option (Option FormatsObj)
  textComponent : Option (Option Nat)
  messages : Option (Option Nat)
  defaultLocale : Option (Option String)
  defaultFormats : Option (Option FormatsObj)
  onError : Option (Option JsFun)
  extra : List (String × Nat)
  cacheRef : Nat
deriving DecidableEq

/-- createIntl (provider.tsx lines 157 to 230): build the formatter bundle
over the given cache, spread the configuration over the system defaults,
fall back to the default locale (or en) when the resolved locale is falsy
or unsupported, reporting the fallback through onError when onError is a
function, and return the context object. The list component collects the
structured errors passed to onError. The external locale-availability
predicate (the intl-locales-supported package) is a parameter. -/
def createIntl (config : RawConfig) (supported : String → Bool)
    (cache : Option Nat) (n : Nat) : IntlShape × List IntlError × Nat :=
  let fRes := createFormatters cache n
  let resolvedConfig := mergeConfigs DEFAULT_INTL_CONFIG config
  let locale := jsGet resolvedConfig.locale
  let fallback := localeNotUsable supported locale
  let emitted :=
    if fallback then
      if isJsFn (jsGet resolvedConfig.onError) then
        [createError (missingLocaleMessage locale (jsGet resolvedConfig.defaultLocale))]
      else []
    else []
  let resolved2 :=
    if fallback then
      { resolvedConfig with
          locale := some (jsOrStr (jsGet resolvedConfig.defaultLocale) (some ("en"))) }
    else resolvedConfig
  ({ ref := fRes.2
     locale := resolved2.locale
     timeZone := resolved2.timeZone
     formats := resolved2.formats
     textComponent := resolved2.textComponent
     messages := resolved2.messages
     defaultLocale := resolved2.defaultLocale
     defaultFormats := resolved2.defaultFormats
     onError := resolved2.onError
     extra := resolved2.extra
     cacheRef := fRes.1 }, emitted, fRes.2 + 1)

/-- The state kept by the IntlProvider component (lines 32 to 47): the
cache created at mount, the current context object, and the memoized
canonical configuration. -/
structure ProviderState where
  cache : Nat
  intl : IntlShape
  prevConfig : CanonConfig
deriving DecidableEq

/-- Mounting the IntlProvider (lines 125 to 130): create the cache once,
build the initial context from the normalized props and that cache, and
memoize a second normalization of the props, in source evaluation order. -/
def mountState (supported : String → Bool) (props : RawConfig) (n : Nat) :
    ProviderState × Nat :=
  let cacheRes := createIntlCache n
  let pc1 := processIntlConfig props cacheRes.2
  let intlRes := createIntl pc1.1.toRaw supported (some cacheRes.1) pc1.2
  let pc2 := processIntlConfig props intlRes.2.2
  ({ cache := cacheRes.1, intl := intlRes.1, prevConfig := pc2.1 }, pc2.2)

/-- getDerivedStateFromProps (provider.tsx lines 132 to 144): normalize
the incoming props; when the result is shallow-equal to the memoized
canonical configuration return null (no state change), otherwise build a
new context with the mount cache and return the partial state update. -/
def getDerivedStateFromProps (supported : String → Bool) (props : RawConfig)
    (prevConfig : CanonConfig) (cache : Nat) (n : Nat) :
    Option (IntlShape × CanonConfig) × Nat :=
  let pc := processIntlConfig props n
  if shallowEquals prevConfig pc.1 then (none, pc.2)
  else
    let intlRes := createIntl pc.1.toRaw supported (some cache) pc.2
    (some (intlRes.1, pc.1), intlRes.2.2)

/-- One configuration event of the provider: apply the partial state
update returned by getDerivedStateFromProps, keeping the state (and its
context object) untouched when the update is null. -/
def providerStep (supported : String → Bool) (props : RawConfig)
    (st : ProviderState) (n : Nat) : ProviderState × Nat :=
  match getDerivedStateFromProps supported props st.prevConfig st.cache n with
  | (none, n2) => (st, n2)
  | (some upd, n2) => ({ st with intl := upd.1, prevConfig := upd.2 }, n2)

/-- A whole provider session: mount with the initial props, then apply one
provider step per subsequent configuration event. -/
def runProvider (supported : String → Bool) (props : RawConfig)
    (updates : List RawConfig) (n : Nat) : ProviderState × Nat :=
  updates.foldl (fun acc p => providerStep supported p acc.1 acc.2)
    (mountState supported props n)

/-- A locale-availability predicate accepting every locale. -/
def supAll : String → Bool := fun _ => true

/-- A locale-availability predicate rejecting every locale. -/
def supNone : String → Bool := fun _ => false

/-- A raw configuration with every key absent. -/
def rawEmpty : RawConfig :=
  { locale := none, timeZone := none, formats := none, textComponent := none
    messages := none, defaultLocale := none, defaultFormats := none
    onError := none, extra := [] }

/-- A realistic provider props object: locale and defaultLocale en, an
explicit timeZone, and a formats object (reference 0) holding one date
preset named short with no timeZone of its own. -/
def rawC1 : RawConfig :=
  { locale := some (some ("en"))
    timeZone := some (some ("UTC"))
    formats := some (some (Obj.mk 0
      { date := some (some [("short", { timeZone := none, others := [("month", 1)] })])
        time := none
        others := [] }))
    textComponent := none
    messages := none
    defaultLocale := some (some ("en"))
    defaultFormats := none
    onError := none
    extra := [] }

/-- Reading a present property yields its (possibly undefined) value. -/
theorem jsGet_some {α : Type} (x : Option α) : jsGet (some x) = x := rfl

/-- Injecting a timeZone into a preset record twice gives the same record
as injecting it once: after the first pass every preset carries a timeZone
property, so the second spread never changes a value. -/
theorem setTimeZoneInOptions_idem (mp : PresetMap) (tz : String) :
    setTimeZoneInOptions (setTimeZoneInOptions mp tz) tz
      = setTimeZoneInOptions mp tz := by
  unfold setTimeZoneInOptions
  rw [List.map_map]
  apply List.map_congr_left
  intro kv _
  simp

/-- Rebuilding a formats object through the timeZone-injection block a
second time changes only its reference, never its deep value. -/
theorem injectFormats_val_idem (F : Option FormatsObj) (tz : String) (n m : Nat) :
    ((injectFormats (injectFormats F tz n).1 tz m).1).map Obj.val
      = ((injectFormats F tz n).1).map Obj.val := by
  cases F with
  | none => rfl
  | some fobj =>
    obtain ⟨r, dv, tv, ov⟩ := fobj
    cases dv with
    | none =>
      cases tv with
      | none => rfl
      | some t2 =>
        cases t2 with
        | none => rfl
        | some tm => simp [injectFormats, setTimeZoneInOptions_idem]
    | some d2 =>
      cases d2 with
      | none =>
        cases tv with
        | none => rfl
        | some t2 =>
          cases t2 with
          | none => rfl
          | some tm => simp [injectFormats, setTimeZoneInOptions_idem]
      | some dm =>
        cases tv with
        | none => simp [injectFormats, setTimeZoneInOptions_idem]
        | some t2 =>
          cases t2 with
          | none => simp [injectFormats, setTimeZoneInOptions_idem]
          | some tm => simp [injectFormats, setTimeZoneInOptions_idem]

/-- A non-empty string is truthy. -/
theorem truthyStr_some_ne (s : String) (h : s ≠ "") : truthyStr (some s) = true := by
  simp [truthyStr, h]

/-- The timeZone-injection block never creates or removes a formats
object: the result exists exactly when the input does. -/
theorem injectFormats_isNone (F : Option FormatsObj) (tz : String) (n : Nat) :
    ((injectFormats F tz n).1).isNone = F.isNone := by
  cases F with
  | none => rfl
  | some fobj =>
    obtain ⟨r, dv, tv, ov⟩ := fobj
    cases dv with
    | none =>
      cases tv with
      | none => rfl
      | some t2 => cases t2 with
        | none => rfl
        | some tm => rfl
    | some d2 =>
      cases d2 with
      | none =>
        cases tv with
        | none => rfl
        | some t2 => cases t2 with
          | none => rfl
          | some tm => rfl
      | some dm =>
        cases tv with
        | none => rfl
        | some t2 => cases t2 with
          | none => rfl
          | some tm => rfl

/-- Applied to an existing formats object, the timeZone-injection block
returns an object whose truthy date and time preset records are the
setTimeZoneInOptions images of the input records. -/
theorem injectFormats_dates (fobj : FormatsObj) (tz : String) (n : Nat) :
    ∃ f2, (injectFormats (some fobj) tz n).1 = some f2
      ∧ (∀ dm, fobj.val.date.getD none = some dm →
          f2.val.date = some (some (setTimeZoneInOptions dm tz)))
      ∧ (∀ tm, fobj.val.time.getD none = some tm →
          f2.val.time = some (some (setTimeZoneInOptions tm tz))) := by
  obtain ⟨r, dv, tv, ov⟩ := fobj
  cases dv with
  | none =>
    cases tv with
    | none =>
      refine ⟨_, rfl, ?_, ?_⟩ <;> intro x hx <;> simp at hx
    | some t2 =>
      cases t2 with
      | none =>
        refine ⟨_, rfl, ?_, ?_⟩ <;> intro x hx <;> simp at hx
      | some tm =>
        refine ⟨_, rfl, ?_, ?_⟩ <;> intro x hx <;> simp at hx
        subst hx
        rfl
  | some d2 =>
    cases d2 with
    | none =>
      cases tv with
      | none =>
        refine ⟨_, rfl, ?_, ?_⟩ <;> intro x hx <;> simp at hx
      | some t2 =>
        cases t2 with
        | none =>
          refine ⟨_, rfl, ?_, ?_⟩ <;> intro x hx <;> simp at hx
        | some tm =>
          refine ⟨_, rfl, ?_, ?_⟩ <;> intro x hx <;> simp at hx
          subst hx
          rfl
    | some dm =>
      cases tv with
      | none =>
        refine ⟨_, rfl, ?_, ?_⟩ <;> intro x hx <;> simp at hx
        subst hx
        rfl
      | some t2 =>
        cases t2 with
        | none =>
          refine ⟨_, rfl, ?_, ?_⟩ <;> intro x hx <;> simp at hx
          subst hx
          rfl
        | some tm =>
          refine ⟨_, rfl, ?_, ?_⟩ <;> intro x hx <;> simp at hx <;> subst hx <;> rfl

/-- Under a truthy timeZone, the canonical formats field is the
timeZone-injection image of the raw formats property. -/
theorem process_formats (raw : RawConfig) (n : Nat)
    (htr : truthyStr (jsGet raw.timeZone) = true) :
    (processIntlConfig raw n).1.formats
      = (injectFormats (jsGet raw.formats) ((jsGet raw.timeZone).getD "") n).1 := by
  simp [processIntlConfig, htr]

/-- Under a truthy timeZone, the canonical defaultFormats field is the
timeZone-injection image of the raw defaultFormats property (its
allocation counter continues after the formats rebuild). -/
theorem process_defaultFormats (raw : RawConfig) (n : Nat)
    (htr : truthyStr (jsGet raw.timeZone) = true) :
    (processIntlConfig raw n).1.defaultFormats
      = (injectFormats (jsGet raw.defaultFormats) ((jsGet raw.timeZone).getD "")
          ((injectFormats (jsGet raw.formats) ((jsGet raw.timeZone).getD "") n).2)).1 := by
  simp [processIntlConfig, htr]

/-- Membership in the setTimeZoneInOptions image: each preset is sent to
the spread of its options over the injected timeZone base layer. -/
theorem setTimeZoneInOptions_mem (mp : PresetMap) (k : String) (o : DTOpts) (tz : String)
    (h : (k, o) ∈ mp) :
    (k, { timeZone := some (o.timeZone.getD (some tz)), others := o.others : DTOpts })
      ∈ setTimeZoneInOptions mp tz := by
  simpa [setTimeZoneInOptions] using
    List.mem_map_of_mem
      (fun kv : String × DTOpts =>
        (kv.1, { timeZone := some (kv.2.timeZone.getD (some tz)), others := kv.2.others : DTOpts }))
      h

/-- The context object built by createIntl over a supplied cache carries
that cache. -/
theorem createIntl_cacheRef (config : RawConfig) (supported : String → Bool) (c n : Nat) :
    (createIntl config supported (some c) n).1.cacheRef = c := rfl

/-- A provider step never replaces the mount cache, and a context it
builds is built over that cache. -/
theorem providerStep_cache_inv (supported : String → Bool) (p : RawConfig)
    (st : ProviderState) (m c : Nat) (h1 : st.cache = c) (h2 : st.intl.cacheRef = c) :
    (providerStep supported p st m).1.cache = c
    ∧ (providerStep supported p st m).1.intl.cacheRef = c := by
  unfold providerStep getDerivedStateFromProps
  by_cases hse : shallowEquals st.prevConfig (processIntlConfig p m).1 = true
  · simp [hse, h1, h2]
  · simp [hse, h1, h2, createIntl_cacheRef]

/-- Folding provider steps preserves the cache facts of the state. -/
theorem runProvider_fold_inv (supported : String → Bool) (updates : List RawConfig) :
    ∀ (st : ProviderState) (m c : Nat), st.cache = c → st.intl.cacheRef = c →
      ((updates.foldl (fun acc p => providerStep supported p acc.1 acc.2) (st, m)).1.cache = c
      ∧ (updates.foldl (fun acc p => providerStep supported p acc.1 acc.2) (st, m)).1.intl.cacheRef = c) := by
  induction updates with
  | nil =>
    intro st m c h1 h2
    exact ⟨h1, h2⟩
  | cons p rest ih =>
    intro st m c h1 h2
    have h := providerStep_cache_inv supported p st m c h1 h2
    simpa using ih (providerStep supported p st m).1 (providerStep supported p st m).2 c h.1 h.2

end ReactIntl

namespace ReactIntl

/-- C1: the spec requires that presenting the very same raw configuration
to the lifecycle guard again returns the previously built context object
itself. Evaluating the code at rawC1 (a configuration with timeZone set
and a date preset record) refutes this: the provider is mounted with
rawC1 and then receives rawC1 twice more unchanged, yet each of the two
guard invocations builds a brand-new context object (the reference of the
stored context changes at every step), because processIntlConfig
allocates a fresh formats object on every call, so the shallow comparison
with the memoized canonical configuration never succeeds. -/
theorem c1_identical_config_rebuilds :
    (let m := mountState supAll rawC1 1
     let s1 := providerStep supAll rawC1 m.1 m.2
     let s2 := providerStep supAll rawC1 s1.1 s1.2
     s1.1.intl.ref ≠ m.1.intl.ref ∧ s2.1.intl.ref ≠ s1.1.intl.ref) := by
  decide

/-- C3: normalization is idempotent up to deep value equality of each
canonical field: re-normalizing the canonical configuration (viewed again
as a raw configuration object) yields the same per-field deep values,
whatever the allocation counters of the two passes are. -/
theorem c3_normalize_idempotent (raw : RawConfig) (n m : Nat) :
    CanonConfig.strip ((processIntlConfig ((processIntlConfig raw n).1.toRaw) m).1)
      = CanonConfig.strip ((processIntlConfig raw n).1) := by
  by_cases htz : truthyStr (jsGet raw.timeZone) = true
  · simp [processIntlConfig, CanonConfig.toRaw, CanonConfig.strip, jsGet_some, htz,
      injectFormats_val_idem]
  · simp [processIntlConfig, CanonConfig.toRaw, CanonConfig.strip, jsGet_some, htz]

/-- One date preset record named short with no timeZone of its own. -/
def dmE : PresetMap := [("short", { timeZone := none, others := [("month", 2)] })]

/-- A raw configuration whose timeZone key is present but holds the empty
string, with a formats object (reference 0) carrying the date record dmE. -/
def rawE : RawConfig :=
  { locale := none
    timeZone := some (some (""))
    formats := some (some (Obj.mk 0 { date := some (some dmE), time := none, others := [] }))
    textComponent := none
    messages := none
    defaultLocale := none
    defaultFormats := none
    onError := none
    extra := [] }

/-- C2, counterexample: on rawE the timeZone key is present (holding the
empty string), yet normalization leaves the existing date preset record
untouched instead of replacing it by the injected record demanded by the
claim, because the code guards the injection by truthiness, not presence:
the preset short never receives the top-level timeZone. -/
theorem c2_counterexample :
    jsGet rawE.timeZone = some ("")
    ∧ ((processIntlConfig rawE 1).1.formats.map fun f => f.val.date)
        = some (some (some dmE))
    ∧ setTimeZoneInOptions dmE "" ≠ dmE := by
  decide

/-- C2, amended: with a present and non-empty (truthy) timeZone,
normalization replaces each existing date and time preset record of
formats and defaultFormats by its setTimeZoneInOptions image, which sends
each preset name to the merge of its original options over the injected
timeZone base layer: a preset with its own timeZone property keeps it, and
a preset lacking one receives the top-level timeZone. -/
theorem c2_timezone_injection (raw : RawConfig) (n : Nat) (tz : String)
    (htz : jsGet raw.timeZone = some tz) (hne : tz ≠ "") :
    (∀ f, jsGet raw.formats = some f →
      ∃ f2, (processIntlConfig raw n).1.formats = some f2
        ∧ (∀ dm, f.val.date.getD none = some dm →
            f2.val.date = some (some (setTimeZoneInOptions dm tz)))
        ∧ (∀ tm, f.val.time.getD none = some tm →
            f2.val.time = some (some (setTimeZoneInOptions tm tz))))
    ∧ (∀ g, jsGet raw.defaultFormats = some g →
      ∃ g2, (processIntlConfig raw n).1.defaultFormats = some g2
        ∧ (∀ dm, g.val.date.getD none = some dm →
            g2.val.date = some (some (setTimeZoneInOptions dm tz)))
        ∧ (∀ tm, g.val.time.getD none = some tm →
            g2.val.time = some (some (setTimeZoneInOptions tm tz))))
    ∧ (∀ (mp : PresetMap) (k : String) (o : DTOpts), (k, o) ∈ mp →
        ((k, { timeZone := some (o.timeZone.getD (some tz)), others := o.others : DTOpts })
            ∈ setTimeZoneInOptions mp tz
        ∧ (o.timeZone = none →
            (k, { timeZone := some (some tz), others := o.others : DTOpts })
              ∈ setTimeZoneInOptions mp tz))) := by
  have htr : truthyStr (jsGet raw.timeZone) = true := by
    rw [htz]
    exact truthyStr_some_ne tz hne
  have hgd : (jsGet raw.timeZone).getD "" = tz := by
    rw [htz]
    rfl
  refine ⟨?_, ?_, ?_⟩
  · intro f hf
    have hfor := process_formats raw n htr
    rw [hgd, hf] at hfor
    obtain ⟨f2, he, hd, ht⟩ := injectFormats_dates f tz n
    exact ⟨f2, by rw [hfor, he], hd, ht⟩
  · intro g hg
    have hfor := process_defaultFormats raw n htr
    rw [hgd, hg] at hfor
    obtain ⟨g2, he, hd, ht⟩ :=
      injectFormats_dates g tz ((injectFormats (jsGet raw.formats) tz n).2)
    exact ⟨g2, by rw [hfor, he], hd, ht⟩
  · intro mp k o hmem
    refine ⟨setTimeZoneInOptions_mem mp k o tz hmem, fun hnone => ?_⟩
    have h2 := setTimeZoneInOptions_mem mp k o tz hmem
    rw [hnone] at h2
    simpa using h2

/-- The date record of the spec example: a preset short lacking its own
timeZone and a preset ny carrying one. -/
def dmW : PresetMap :=
  [("short", { timeZone := none, others := [("month", 3)] }),
   ("ny", { timeZone := some (some ("America/New_York")), others := [] })]

/-- The formats object of the spec example. -/
def fW : FormatsObj := Obj.mk 0 { date := some (some dmW), time := none, others := [] }

/-- The raw configuration of the spec example: timeZone UTC with the date
record dmW. -/
def rawW : RawConfig :=
  { locale := none
    timeZone := some (some ("UTC"))
    formats := some (some fW)
    textComponent := none
    messages := none
    defaultLocale := none
    defaultFormats := none
    onError := none
    extra := [] }

theorem c2_witness :
    ((processIntlConfig rawW 0).1.formats.map fun f => f.val.date)
      = some (some (some
          [("short", { timeZone := some (some ("UTC")), others := [("month", 3)] }),
           ("ny", { timeZone := some (some ("America/New_York")), others := [] })])) := by
  obtain ⟨hf, _, _⟩ := c2_timezone_injection rawW 0 "UTC" rfl (by decide)
  obtain ⟨f2, he, hd, _⟩ := hf fW rfl
  rw [he]
  simp [hd dmW rfl]
  decide

/-- C4, counterexample: the object literal returned by normalization has
eight keys, not the nine the claim asserts. -/
theorem c4_counterexample :
    (canonKeys (processIntlConfig rawEmpty 0).1).length = 8
    ∧ (canonKeys (processIntlConfig rawEmpty 0).1).length ≠ 9 := by
  decide

/-- C4, amended: for every raw configuration the normalized output carries
exactly the eight canonical keys of the source literal, the pass-through
fields reading absent input keys as undefined, and the formats and
defaultFormats fields being undefined exactly when the input property
reads as undefined. -/
theorem c4_canonical_fields (raw : RawConfig) (n : Nat) :
    canonKeys (processIntlConfig raw n).1
      = ["locale", "timeZone", "formats", "textComponent", "messages",
         "defaultLocale", "defaultFormats", "onError"]
    ∧ (processIntlConfig raw n).1.locale = jsGet raw.locale
    ∧ (processIntlConfig raw n).1.timeZone = jsGet raw.timeZone
    ∧ (processIntlConfig raw n).1.textComponent = jsGet raw.textComponent
    ∧ (processIntlConfig raw n).1.messages = jsGet raw.messages
    ∧ (processIntlConfig raw n).1.defaultLocale = jsGet raw.defaultLocale
    ∧ (processIntlConfig raw n).1.onError = jsGet raw.onError
    ∧ ((processIntlConfig raw n).1.formats).isNone = (jsGet raw.formats).isNone
    ∧ ((processIntlConfig raw n).1.defaultFormats).isNone = (jsGet raw.defaultFormats).isNone := by
  refine ⟨rfl, rfl, rfl, rfl, rfl, rfl, rfl, ?_, ?_⟩
  · by_cases htz : truthyStr (jsGet raw.timeZone) = true
    · simp [processIntlConfig, htz, injectFormats_isNone]
    · simp [processIntlConfig, htz]
  · by_cases htz : truthyStr (jsGet raw.timeZone) = true
    · simp [processIntlConfig, htz, injectFormats_isNone]
    · simp [processIntlConfig, htz]

/-- An unsupported locale, a supplied onError callback (function reference
0), and an explicitly supplied empty-string defaultLocale. -/
def rawC5 : RawConfig :=
  { locale := some (some ("xx-ZZ"))
    timeZone := none
    formats := none
    textComponent := none
    messages := none
    defaultLocale := some (some (""))
    defaultFormats := none
    onError := some (some (JsFun.fn 0))
    extra := [] }

/-- C5, counterexample: rawC5 requests an unsupported locale with a
supplied onError callback, and its defaultLocale is supplied (the empty
string), so the claim demands that the context locale become that
defaultLocale; the code instead falls through the or-else to en, because
the fallback uses JavaScript truthiness, under which the empty string
counts like an absent defaultLocale. -/
theorem c5_counterexample :
    jsGet rawC5.defaultLocale = some ("")
    ∧ supNone ("xx-ZZ") = false
    ∧ isJsFn (jsGet rawC5.onError) = true
    ∧ (createIntl rawC5 supNone none 1).1.locale = some (some ("en"))
    ∧ (some (some ("en")) : Option (Option String)) ≠ some (some ("")) := by
  decide

/-- C5, amended: for every configuration whose resolved locale is falsy or
unsupported and whose resolved onError is a function, context construction
invokes onError exactly once, with the structured missing-locale-data
error, and sets the context locale to defaultLocale, or to en when
defaultLocale is absent, undefined or empty; construction returns normally
(this model of createIntl is a total function, mirroring the absence of
any throw on this code path). -/
theorem c5_fallback_reports_and_defaults (config : RawConfig) (supported : String → Bool)
    (cache : Option Nat) (n : Nat)
    (hl : localeNotUsable supported
        (jsGet (mergeConfigs DEFAULT_INTL_CONFIG config).locale) = true)
    (he : isJsFn (jsGet (mergeConfigs DEFAULT_INTL_CONFIG config).onError) = true) :
    (createIntl config supported cache n).2.1
      = [createError (missingLocaleMessage
          (jsGet (mergeConfigs DEFAULT_INTL_CONFIG config).locale)
          (jsGet (mergeConfigs DEFAULT_INTL_CONFIG config).defaultLocale))]
    ∧ (createIntl config supported cache n).1.locale
      = some (jsOrStr (jsGet (mergeConfigs DEFAULT_INTL_CONFIG config).defaultLocale)
          (some ("en"))) := by
  constructor
  · simp [createIntl, hl, he]
  · simp [createIntl, hl]

/-- The spec example configuration: unsupported locale xx-ZZ, defaultLocale
de, onError a function. -/
def rawC5w : RawConfig :=
  { locale := some (some ("xx-ZZ"))
    timeZone := none
    formats := none
    textComponent := none
    messages := none
    defaultLocale := some (some ("de"))
    defaultFormats := none
    onError := some (some (JsFun.fn 0))
    extra := [] }

theorem c5_witness :
    (createIntl rawC5w supNone none 1).2.1
      = [createError (missingLocaleMessage (some ("xx-ZZ")) (some ("de")))]
    ∧ (createIntl rawC5w supNone none 1).1.locale = some (some ("de")) := by
  have h := c5_fallback_reports_and_defaults rawC5w supNone none 1 (by decide) (by decide)
  exact ⟨h.1, h.2⟩

/-- C6, counterexample: the canonical configuration normalized from the
empty raw configuration carries a present defaultLocale key holding
undefined, so the claim demands it resolve to the system default en; the
spread instead lets the present undefined key override the default, and
the resolved defaultLocale is undefined. -/
theorem c6_counterexample :
    (processIntlConfig rawEmpty 0).1.defaultLocale = none
    ∧ ((processIntlConfig rawEmpty 0).1.toRaw).defaultLocale = some none
    ∧ jsGet DEFAULT_INTL_CONFIG.defaultLocale = some ("en")
    ∧ jsGet (mergeConfigs DEFAULT_INTL_CONFIG
        ((processIntlConfig rawEmpty 0).1.toRaw)).defaultLocale = none
    ∧ (none : Option String) ≠ some ("en") := by
  decide

/-- C6, amended: the spread of the configuration over the system defaults
resolves a key that is absent from the configuration to its default (only
defaultLocale has a spec-stated default, en) and resolves every present
key, even one holding undefined, to the configuration's own value; since a
canonical configuration always carries all eight keys, it overrides every
default, so the resolved configuration equals it key for key. -/
theorem c6_merge_defaults (c : RawConfig) (raw : RawConfig) (n : Nat) :
    (mergeConfigs DEFAULT_INTL_CONFIG c).defaultLocale
      = (match c.defaultLocale with
         | some v => some v
         | none => some (some ("en")))
    ∧ (mergeConfigs DEFAULT_INTL_CONFIG c).locale = c.locale
    ∧ (mergeConfigs DEFAULT_INTL_CONFIG c).timeZone = c.timeZone
    ∧ (mergeConfigs DEFAULT_INTL_CONFIG c).formats = c.formats
    ∧ (mergeConfigs DEFAULT_INTL_CONFIG c).textComponent = c.textComponent
    ∧ (mergeConfigs DEFAULT_INTL_CONFIG c).messages = c.messages
    ∧ (mergeConfigs DEFAULT_INTL_CONFIG c).defaultFormats = c.defaultFormats
    ∧ (mergeConfigs DEFAULT_INTL_CONFIG c).onError = c.onError
    ∧ mergeConfigs DEFAULT_INTL_CONFIG ((processIntlConfig raw n).1.toRaw)
      = (processIntlConfig raw n).1.toRaw := by
  obtain ⟨l, t, f, x, ms, dl, df, oe, ex⟩ := c
  refine ⟨?_, ?_, ?_, ?_, ?_, ?_, ?_, ?_, rfl⟩
  · cases dl <;> rfl
  · cases l <;> rfl
  · cases t <;> rfl
  · cases f <;> rfl
  · cases x <;> rfl
  · cases ms <;> rfl
  · cases df <;> rfl
  · cases oe <;> rfl

/-- C7: on locale fallback every resolved configuration field other than
locale is carried into the returned context unchanged; in particular the
messages mapping supplied in the configuration is preserved, not cleared
or replaced (the stale source comment at lines 179 to 181 claims messages
are overridden, but no such assignment exists). -/
theorem c7_fallback_frame (config : RawConfig) (supported : String → Bool)
    (cache : Option Nat) (n : Nat)
    (hl : localeNotUsable supported
        (jsGet (mergeConfigs DEFAULT_INTL_CONFIG config).locale) = true) :
    (createIntl config supported cache n).1.timeZone
        = (mergeConfigs DEFAULT_INTL_CONFIG config).timeZone
    ∧ (createIntl config supported cache n).1.formats
        = (mergeConfigs DEFAULT_INTL_CONFIG config).formats
    ∧ (createIntl config supported cache n).1.textComponent
        = (mergeConfigs DEFAULT_INTL_CONFIG config).textComponent
    ∧ (createIntl config supported cache n).1.messages
        = (mergeConfigs DEFAULT_INTL_CONFIG config).messages
    ∧ (createIntl config supported cache n).1.messages = config.messages
    ∧ (createIntl config supported cache n).1.defaultLocale
        = (mergeConfigs DEFAULT_INTL_CONFIG config).defaultLocale
    ∧ (createIntl config supported cache n).1.defaultFormats
        = (mergeConfigs DEFAULT_INTL_CONFIG config).defaultFormats
    ∧ (createIntl config supported cache n).1.onError
        = (mergeConfigs DEFAULT_INTL_CONFIG config).onError
    ∧ (createIntl config supported cache n).1.extra = config.extra := by
  have hms : (mergeConfigs DEFAULT_INTL_CONFIG config).messages = config.messages := by
    cases hc : config.messages <;>
      simp [mergeConfigs, hc, Option.orElse, DEFAULT_INTL_CONFIG]
  have hex : (mergeConfigs DEFAULT_INTL_CONFIG config).extra = config.extra := by
    simp [mergeConfigs, DEFAULT_INTL_CONFIG]
  refine ⟨?_, ?_, ?_, ?_, ?_, ?_, ?_, ?_, ?_⟩ <;>
    simp [createIntl, hl, hms, hex]

/-- A configuration for the fallback frame witness: unsupported locale,
messages object 42, defaultLocale de, an extra non-canonical key. -/
def rawC7 : RawConfig :=
  { locale := some (some ("zz"))
    timeZone := none
    formats := none
    textComponent := none
    messages := some (some 42)
    defaultLocale := some (some ("de"))
    defaultFormats := none
    onError := none
    extra := [("custom", 9)] }

theorem c7_witness :
    (createIntl rawC7 supNone none 0).1.messages = some (some 42)
    ∧ (createIntl rawC7 supNone none 0).1.defaultLocale = some (some ("de")) := by
  have h := c7_fallback_frame rawC7 supNone none 0 (by decide)
  exact ⟨h.2.2.2.2.1, h.2.2.2.2.2.1⟩

/-- C8: a single formatter cache is created at mount and every context
built across any sequence of configuration events is built over that
cache: after mounting at counter n (the mount cache takes reference n) and
applying any list of provider steps, the state still holds cache n and its
context object was built over cache n. Since every prefix of events is
itself such a sequence, every intermediate context is covered. -/
theorem c8_cache_constant (supported : String → Bool) (props : RawConfig)
    (updates : List RawConfig) (n : Nat) :
    (runProvider supported props updates n).1.cache = n
    ∧ (runProvider supported props updates n).1.intl.cacheRef = n := by
  exact runProvider_fold_inv supported updates (mountState supported props n).1
    (mountState supported props n).2 n rfl rfl

/-- A configuration with unsupported locale and no onError at all. -/
def rawC9 : RawConfig :=
  { locale := some (some ("zz"))
    timeZone := none
    formats := none
    textComponent := none
    messages := none
    defaultLocale := none
    defaultFormats := none
    onError := none
    extra := [] }

/-- C9: when the resolved locale is falsy or unsupported and the resolved
onError is not a function (absent, undefined, or a non-callable value),
context construction performs the locale fallback without invoking any
error callback: no error is emitted and the context locale is the fallback
locale, defaultLocale when truthy and en otherwise; construction returns
normally (the model is a total function, mirroring the absence of any
throw on this code path). -/
theorem c9_fallback_without_callback (config : RawConfig) (supported : String → Bool)
    (cache : Option Nat) (n : Nat)
    (hl : localeNotUsable supported
        (jsGet (mergeConfigs DEFAULT_INTL_CONFIG config).locale) = true)
    (he : isJsFn (jsGet (mergeConfigs DEFAULT_INTL_CONFIG config).onError) = false) :
    (createIntl config supported cache n).2.1 = []
    ∧ (createIntl config supported cache n).1.locale
      = some (jsOrStr (jsGet (mergeConfigs DEFAULT_INTL_CONFIG config).defaultLocale)
          (some ("en"))) := by
  constructor
  · simp [createIntl, hl, he]
  · simp [createIntl, hl]

theorem c9_witness :
    (createIntl rawC9 supNone none 0).2.1 = []
    ∧ (createIntl rawC9 supNone none 0).1.locale = some (some ("en")) := by
  have h := c9_fallback_without_callback rawC9 supNone none 0 (by decide) (by decide)
  exact ⟨h.1, h.2⟩

/-- C10: normalization reads none of the non-canonical properties: two raw
configurations agreeing on the eight canonical keys normalize to equal
outputs at equal allocation counters, the lifecycle guard returns the
same decision for both, and whenever the guard would keep the previous
context for the first it keeps it for the second. -/
theorem c10_extra_fields_insensitive (supported : String → Bool) (r1 r2 : RawConfig)
    (prevConfig : CanonConfig) (cache n : Nat)
    (h : r1.locale = r2.locale ∧ r1.timeZone = r2.timeZone ∧ r1.formats = r2.formats
      ∧ r1.textComponent = r2.textComponent ∧ r1.messages = r2.messages
      ∧ r1.defaultLocale = r2.defaultLocale ∧ r1.defaultFormats = r2.defaultFormats
      ∧ r1.onError = r2.onError) :
    processIntlConfig r1 n = processIntlConfig r2 n
    ∧ getDerivedStateFromProps supported r2 prevConfig cache n
        = getDerivedStateFromProps supported r1 prevConfig cache n
    ∧ (shallowEquals prevConfig (processIntlConfig r1 n).1 = true →
        getDerivedStateFromProps supported r2 prevConfig cache n
          = (none, (processIntlConfig r1 n).2)) := by
  obtain ⟨h1, h2, h3, h4, h5, h6, h7, h8⟩ := h
  have hp : processIntlConfig r1 n = processIntlConfig r2 n := by
    simp [processIntlConfig, h1, h2, h3, h4, h5, h6, h7, h8]
  refine ⟨hp, ?_, ?_⟩
  · simp [getDerivedStateFromProps, hp]
  · intro hse
    simp [getDerivedStateFromProps, ← hp, hse]

/-- The empty configuration carrying one non-canonical property theme. -/
def rawXA : RawConfig := { rawEmpty with extra := [("theme", 1)] }

/-- The empty configuration carrying a different non-canonical property. -/
def rawXB : RawConfig := { rawEmpty with extra := [("debugFlag", 2)] }

theorem c10_witness :
    processIntlConfig rawXA 0 = processIntlConfig rawXB 0
    ∧ getDerivedStateFromProps supAll rawXB (processIntlConfig rawXA 0).1 7 0 = (none, 0) := by
  have h := c10_extra_fields_insensitive supAll rawXA rawXB (processIntlConfig rawXA 0).1 7 0
    ⟨rfl, rfl, rfl, rfl, rfl, rfl, rfl, rfl⟩
  exact ⟨h.1, h.2.2 (by decide)⟩

end ReactIntl
